import Mathlib

/-!
Verification of the travel-recommender application.

Server side: `src/app/api/recommend/route.ts` exports one handler `POST`.
Client side: the page component (form + timeline) with `FormSchema`,
`onSubmit` and `capitaliseFirstLetter`.

The embedding models JavaScript falsiness of the string-typed values the
code inspects: a missing (`undefined`/`null`) optional value and the empty
string are the falsy cases.  External effects (the environment variable,
the request-body JSON parse, the upstream fetch and the results of
`JSON.parse`) are supplied as an explicit `World` value, so the handler is
a pure function of the world; a JavaScript exception at one of the await
points is modelled by the corresponding `World` alternative and surfaces
as `Except.error` in the inner computation, which the top-level
`try/catch` of the handler converts to a generic 500 response.
-/

/-- JavaScript falsiness of a string value: only `""` is falsy. -/
def strFalsy (s : String) : Bool := s == ""

/-- JavaScript falsiness of an optional string value: `undefined`/`null`
(`none`) and the empty string are falsy. -/
def optStrFalsy : Option String → Bool
  | none => true
  | some s => s == ""

/-- The parsed request body `{username, age, style, activity}` destructured
by the handler; a field absent from the JSON object is modelled as `""`
(both are falsy under the `!x` checks the code performs). -/
structure ReqBody where
  username : String
  age : String
  style : String
  activity : String
deriving DecidableEq

/-- The object obtained from `JSON.parse(rawJsonText)`; a key absent from
the parsed object yields `undefined`, modelled as `""` (both falsy under
the `!city` style checks). -/
structure ParsedRec where
  city : String
  country : String
  recommendation : String
deriving DecidableEq

/-- Behaviour of the outbound `fetch` to the AI service, as observed by the
handler at its await points. -/
inductive FetchResult where
  /-- `fetch` itself throws (network failure). -/
  | throws : FetchResult
  /-- `res.ok` is false; `res.text()` returned `detail`. -/
  | notOk (status : Nat) (detail : String) : FetchResult
  /-- `res.ok` is false and `res.text()` throws. -/
  | notOkTextThrows (status : Nat) : FetchResult
  /-- `res.ok` is true but `res.json()` throws. -/
  | okJsonThrows : FetchResult
  /-- `res.ok` is true; `rawJsonText` is the value of
  `data.candidates?.[0]?.content?.parts?.[0]?.text` (`none` when the path is
  absent), and `parsed` is the result of `JSON.parse` on that text
  (`none` when the parse throws). -/
  | ok (rawJsonText : Option String) (parsed : Option ParsedRec) : FetchResult
deriving DecidableEq

/-- Everything external the handler observes during one request. -/
structure World where
  /-- `process.env.GEMINI_API_KEY` (`none` = unset). -/
  geminiApiKey : Option String
  /-- Result of `await req.json()` (`none` = the body parse throws). -/
  body : Option ReqBody
  /-- Behaviour of the upstream call. -/
  fetch : FetchResult
deriving DecidableEq

/-- One HTTP response of the handler, with the JSON body as an ordered
key/value list, plus whether the outbound fetch was issued before the
response was produced. -/
structure Outcome where
  status : Nat
  body : List (String × String)
  calledUpstream : Bool
deriving DecidableEq

/-- The body of the `try` block of `POST` in `route.ts`, line by line:
credential gate, request-body parse, field-validation gate, upstream call,
`res.ok` check, text extraction, `JSON.parse` (whose failure is handled by
the inner `try/catch` returning the invalid-JSON 500), and the three
ordered output-field checks.  `Except.error b` is a JavaScript exception
propagating out of the `try` block; `b` records whether the upstream call
had been made. -/
def postInner (w : World) : Except Bool Outcome :=
  if optStrFalsy w.geminiApiKey then
    Except.ok ⟨500, [("error", "GEMINI_API_KEY environment variable not set")], false⟩
  else
    match w.body with
    | none => Except.error false
    | some b =>
      if strFalsy b.username || strFalsy b.age || strFalsy b.style || strFalsy b.activity then
        Except.ok ⟨400, [("error", "missing fields")], false⟩
      else
        match w.fetch with
        | FetchResult.throws => Except.error true
        | FetchResult.notOk _ _ =>
          Except.ok ⟨500, [("error", "Gemini API request failed")], true⟩
        | FetchResult.notOkTextThrows _ => Except.error true
        | FetchResult.okJsonThrows => Except.error true
        | FetchResult.ok rawJsonText parsed =>
          if optStrFalsy rawJsonText then
            Except.ok ⟨500, [("error", "Could not get structured recommendation from AI")], true⟩
          else
            match parsed with
            | none =>
              Except.ok ⟨500, [("error", "Invalid JSON format from AI")], true⟩
            | some p =>
              if strFalsy p.city then
                Except.ok ⟨500, [("error", "AI response missing 'city' field")], true⟩
              else if strFalsy p.country then
                Except.ok ⟨500, [("error", "AI response missing 'country' field")], true⟩
              else if strFalsy p.recommendation then
                Except.ok ⟨500, [("error", "AI response missing 'recommendation' field")], true⟩
              else
                Except.ok ⟨200, [("city", p.city), ("country", p.country),
                                 ("recommendation", p.recommendation)], true⟩

/-- The exported handler `POST`: the `try` body together with the top-level
`catch`, which converts any escaped exception into the generic
500 "Server processing error" response. -/
def POST (w : World) : Outcome :=
  match postInner w with
  | Except.ok o => o
  | Except.error b => ⟨500, [("error", "Server processing error")], b⟩

/-!
Client side: the page component of `src/unnamed/part_000`.
-/

/-- The validated form data of the page (`type FormData = z.infer<typeof FormSchema>`). -/
structure FormData where
  username : String
  age : String
  style : String
  activity : String
deriving DecidableEq

/-- The per-field messages produced by `FormSchema` (zod): `username` needs
length at least 2, `age` at least 1, `style` and `activity` at least 3.
Each failing field yields its field-specific zod message. -/
def formFieldErrors (d : FormData) : List (String × String) :=
  (if d.username.length < 2 then
    [("username", "String must contain at least 2 character(s)")] else []) ++
  (if d.age.length < 1 then
    [("age", "String must contain at least 1 character(s)")] else []) ++
  (if d.style.length < 3 then
    [("style", "String must contain at least 3 character(s)")] else []) ++
  (if d.activity.length < 3 then
    [("activity", "String must contain at least 3 character(s)")] else [])

/-- Result of one submission attempt through the form wrapper. -/
inductive FormSubmission where
  /-- Validation failed: the per-field messages are displayed and the
  submit callback is never invoked. -/
  | blocked (errors : List (String × String)) : FormSubmission
  /-- Validation passed: the submit callback runs with the validated data. -/
  | submitted (data : FormData) : FormSubmission
deriving DecidableEq

/-- Modelled from the spec: the page wires `useForm` with
`zodResolver(FormSchema)` and wraps `onSubmit` in `handleSubmit`; the
resolver library (external code, not in this repository) invokes the
callback only when the schema reports no field errors, and otherwise
displays the per-field messages and performs no network call. -/
def handleSubmitGate (d : FormData) : FormSubmission :=
  if formFieldErrors d = [] then FormSubmission.submitted d
  else FormSubmission.blocked (formFieldErrors d)

/-- Whether a submission attempt reaches the submit callback (and hence
issues the `fetch` to `/api/recommend`). -/
def issuesNetworkCall : FormSubmission → Bool
  | FormSubmission.blocked _ => false
  | FormSubmission.submitted _ => true

/-- The JSON body of the endpoint response as the client reads it
(`await res.json()`); each key is `none` when absent from the object. -/
structure ClientJson where
  error : Option String
  city : Option String
  country : Option String
  recommendation : Option String
deriving DecidableEq

/-- The `fetch` response as the client observes it: `res.ok` and the
parsed JSON body. -/
structure ClientResp where
  ok : Bool
  json : ClientJson
deriving DecidableEq

/-- The record written to the `recommendations` collection (without the
store-assigned id and the server timestamp). -/
structure RecommendationRecord where
  username : String
  age : String
  style : String
  activity : String
  city : String
  country : String
  recommendation : String
deriving DecidableEq

/-- Observable result of `onSubmit` after the endpoint responded. -/
inductive SubmitResult where
  /-- The failure alert was shown and `onSubmit` returned: no store write. -/
  | alerted (message : String) : SubmitResult
  /-- `addDoc` was called with this record (and the form was then reset). -/
  | wrote (record : RecommendationRecord) : SubmitResult
deriving DecidableEq

/-- The `onSubmit` callback of the page, after the `fetch` resolved to
`resp`: on `!res.ok || json.error` it alerts with the error message
(`json.error ?? "unknown"`, nullish coalescing) and returns; otherwise it
defaults each of city/country/recommendation to `"Unknown"` via `??`
(nullish coalescing, so only an absent/null field is defaulted) and writes
the merged record to the store. -/
def onSubmit (data : FormData) (resp : ClientResp) : SubmitResult :=
  if !resp.ok || !optStrFalsy resp.json.error then
    SubmitResult.alerted ("Recommendation failed: " ++ resp.json.error.getD "unknown")
  else
    SubmitResult.wrote
      ⟨data.username, data.age, data.style, data.activity,
       resp.json.city.getD "Unknown", resp.json.country.getD "Unknown",
       resp.json.recommendation.getD "Unknown"⟩

/-- Look a key up in a JSON-object body represented as a key/value list. -/
def lookupField (key : String) (body : List (String × String)) : Option String :=
  (body.find? (fun kv => kv.1 == key)).map (fun kv => kv.2)

/-- How the client observes one of the endpoint responses: `res.ok` is the
2xx test on the status, and the JSON keys are looked up in the body. -/
def toClientResp (o : Outcome) : ClientResp :=
  { ok := decide (200 ≤ o.status) && decide (o.status < 300),
    json := { error := lookupField "error" o.body,
              city := lookupField "city" o.body,
              country := lookupField "country" o.body,
              recommendation := lookupField "recommendation" o.body } }

/-- `capitaliseFirstLetter` of the page:
`sentence[0].toLocaleUpperCase() + sentence.slice(1, sentence.length)`.
On the empty string `sentence[0]` is `undefined` and the
`.toLocaleUpperCase()` call throws a `TypeError`, modelled as `none`;
the single-character uppercase map is modelled by `Char.toUpper`. -/
def capitaliseFirstLetter (sentence : String) : Option String :=
  match sentence.data with
  | [] => none
  | c :: rest => some (String.mk (Char.toUpper c :: rest))

/-!
Helper lemmas shared by several claims.
-/

/-- Every normal (non-throwing) result of the `try` block is either a 200
whose body has no `error` key, or a 400/500 whose body is exactly one
non-empty `error` entry. -/
lemma postInner_shape (w : World) (o : Outcome) (h : postInner w = Except.ok o) :
    (o.status = 200 ∧ lookupField "error" o.body = none) ∨
    ((o.status = 400 ∨ o.status = 500) ∧ ∃ m, o.body = [("error", m)] ∧ m ≠ "") := by
  unfold postInner at h
  repeat' split at h
  all_goals try injection h with h
  all_goals try subst h
  all_goals simp_all [lookupField, List.find?]

/-- A 400 result of the `try` block can only come from the field-validation
gate: the credential was present, the body parsed with a falsy field, and
the upstream call had not been made. -/
lemma postInner_400 (w : World) (o : Outcome) (h : postInner w = Except.ok o)
    (h4 : o.status = 400) :
    optStrFalsy w.geminiApiKey = false ∧
    (∃ b, w.body = some b ∧
      (strFalsy b.username || strFalsy b.age || strFalsy b.style ||
        strFalsy b.activity) = true) ∧
    o.calledUpstream = false := by
  unfold postInner at h
  repeat' split at h
  all_goals try injection h with h
  all_goals try subst h
  all_goals simp_all

/-- Every response of the handler is either a 200 whose body has no
`error` key, or a 400/500 whose body is exactly one non-empty `error`
entry. -/
lemma POST_shape (w : World) :
    ((POST w).status = 200 ∧ lookupField "error" (POST w).body = none) ∨
    (((POST w).status = 400 ∨ (POST w).status = 500) ∧
      ∃ m, (POST w).body = [("error", m)] ∧ m ≠ "") := by
  cases hpi : postInner w with
  | ok o =>
    have hPo : POST w = o := by simp [POST, hpi]
    rw [hPo]
    exact postInner_shape w o hpi
  | error b =>
    have hPo : POST w = ⟨500, [("error", "Server processing error")], b⟩ := by
      simp [POST, hpi]
    rw [hPo]
    simp [lookupField, List.find?]

/-- C2 -- If the AI service credential is absent (falsy) in the process
environment, the handler responds 500 with the configuration error body
and never issues the upstream call, whatever the request body and the
upstream behaviour. -/
theorem post_missing_key_500 (w : World)
    (h : optStrFalsy w.geminiApiKey = true) :
    POST w = ⟨500, [("error", "GEMINI_API_KEY environment variable not set")], false⟩ := by
  unfold POST postInner
  simp [h]

/-- C2 witness: with the credential unset, a fully valid body and a
successful upstream still yield the configuration 500 with no upstream
call. -/
theorem post_missing_key_500_witness :
    POST ⟨none, some ⟨"Ana", "29", "Relaxed", "Hiking"⟩,
          FetchResult.ok (some "{...}") (some ⟨"Lisbon", "Portugal", "Surf."⟩)⟩ =
      ⟨500, [("error", "GEMINI_API_KEY environment variable not set")], false⟩ :=
  post_missing_key_500 _ (by decide)

/-- C1 -- With the credential present and the request body parsed, the
handler responds 400 exactly when one of the four fields
username/age/style/activity is falsy, and a 400 response is produced
without the upstream call being made. -/
theorem post_400_iff_missing_field (w : World) (b : ReqBody)
    (hk : optStrFalsy w.geminiApiKey = false) (hb : w.body = some b) :
    ((POST w).status = 400 ↔
      (strFalsy b.username || strFalsy b.age || strFalsy b.style ||
        strFalsy b.activity) = true) ∧
    ((POST w).status = 400 → (POST w).calledUpstream = false) := by
  have hfwd : (POST w).status = 400 →
      (strFalsy b.username || strFalsy b.age || strFalsy b.style ||
        strFalsy b.activity) = true ∧ (POST w).calledUpstream = false := by
    intro h4
    cases hpi : postInner w with
    | ok o =>
      have hPo : POST w = o := by simp [POST, hpi]
      rw [hPo] at h4 ⊢
      obtain ⟨-, ⟨b2, hb2, hfal⟩, hup⟩ := postInner_400 w o hpi h4
      rw [hb] at hb2
      injection hb2 with hbb
      subst hbb
      exact ⟨hfal, hup⟩
    | error e =>
      have hPo : POST w = ⟨500, [("error", "Server processing error")], e⟩ := by
        simp [POST, hpi]
      rw [hPo] at h4
      simp at h4
  refine ⟨⟨fun h4 => (hfwd h4).1, fun hf => ?_⟩, fun h4 => (hfwd h4).2⟩
  simp [POST, postInner, hk, hb, hf]

/-- C1 witness: a body with a falsy `age` field gets a 400 with no
upstream call. -/
theorem post_400_iff_missing_field_witness :
    ((POST ⟨some "k", some ⟨"Ana", "", "Relaxed", "Hiking"⟩, FetchResult.throws⟩).status = 400 ↔
      (strFalsy "Ana" || strFalsy "" || strFalsy "Relaxed" || strFalsy "Hiking") = true) ∧
    ((POST ⟨some "k", some ⟨"Ana", "", "Relaxed", "Hiking"⟩, FetchResult.throws⟩).status = 400 →
      (POST ⟨some "k", some ⟨"Ana", "", "Relaxed", "Hiking"⟩, FetchResult.throws⟩).calledUpstream = false) :=
  post_400_iff_missing_field ⟨some "k", some ⟨"Ana", "", "Relaxed", "Hiking"⟩, FetchResult.throws⟩
    ⟨"Ana", "", "Relaxed", "Hiking"⟩ (by decide) rfl

/-- `Char.ofNat (n - 32)` for `n` in the lowercase ASCII range is an
uppercase letter, hence fixed by `Char.toUpper`. -/
lemma toUpper_ofNat_sub32 (n : Nat) (h1 : 97 ≤ n) (h2 : n ≤ 122) :
    (Char.ofNat (n - 32)).toUpper = Char.ofNat (n - 32) := by
  interval_cases n <;> decide

/-- `Char.toUpper` is idempotent. -/
lemma toUpper_toUpper (c : Char) : c.toUpper.toUpper = c.toUpper := by
  by_cases h : 97 ≤ c.toNat ∧ c.toNat ≤ 122
  · have h1 : c.toUpper = Char.ofNat (c.toNat - 32) := by
      simp only [Char.toUpper]
      rw [if_pos ⟨h.1, h.2⟩]
    rw [h1, toUpper_ofNat_sub32 c.toNat h.1 h.2]
  · have h1 : c.toUpper = c := by
      simp only [Char.toUpper]
      rw [if_neg (fun hc => h ⟨hc.1, hc.2⟩)]
    rw [h1]
    exact h1

/-- C8 -- `capitaliseFirstLetter "lisbon"` is `"Lisbon"`, and on every
non-empty string the function succeeds, uppercases exactly the first
character, leaves the remaining characters unchanged, and is idempotent
(applying it to its own output returns that output). -/
theorem capitaliseFirstLetter_spec :
    capitaliseFirstLetter "lisbon" = some "Lisbon" ∧
    ∀ s : String, s ≠ "" → ∃ t, capitaliseFirstLetter s = some t ∧
      t.data.head? = s.data.head?.map Char.toUpper ∧
      t.data.tail = s.data.tail ∧
      capitaliseFirstLetter t = some t := by
  refine ⟨by decide, fun s hs => ?_⟩
  obtain ⟨l⟩ := s
  match l with
  | [] => exact absurd rfl hs
  | c :: rest =>
    refine ⟨String.mk (Char.toUpper c :: rest), rfl, rfl, rfl, ?_⟩
    show some (String.mk ((Char.toUpper c).toUpper :: rest)) = _
    rw [toUpper_toUpper]

/-- C8 witness: the characterisation applied to the concrete input
`"porto"`. -/
theorem capitaliseFirstLetter_spec_witness :
    ∃ t, capitaliseFirstLetter "porto" = some t ∧
      t.data.head? = ("porto" : String).data.head?.map Char.toUpper ∧
      t.data.tail = ("porto" : String).data.tail ∧
      capitaliseFirstLetter t = some t :=
  capitaliseFirstLetter_spec.2 "porto" (by decide)

/-- C9 -- `capitaliseFirstLetter` fails (the JavaScript first-character
access yields `undefined` and the method call throws) exactly on the
empty string: it returns `none` on `""` and returns normally on every
non-empty input. -/
theorem capitaliseFirstLetter_empty_fails :
    capitaliseFirstLetter "" = none ∧
    ∀ s : String, s ≠ "" → (capitaliseFirstLetter s).isSome = true := by
  refine ⟨rfl, fun s hs => ?_⟩
  obtain ⟨l⟩ := s
  match l with
  | [] => exact absurd rfl hs
  | c :: rest => rfl

/-- C9 witness: the non-empty input `"a"` returns normally while `""`
fails. -/
theorem capitaliseFirstLetter_empty_fails_witness :
    (capitaliseFirstLetter "a").isSome = true ∧ capitaliseFirstLetter "" = none :=
  ⟨capitaliseFirstLetter_empty_fails.2 "a" (by decide),
   capitaliseFirstLetter_empty_fails.1⟩

/-- C3 -- After the upstream JSON has been parsed successfully, the handler
checks `city`, then `country`, then `recommendation`, and responds 500
naming the first falsy field found: a falsy `city` is reported as city; a
present `city` with falsy `country` is reported as country (whatever
`recommendation` is); present `city` and `country` with falsy
`recommendation` is reported as recommendation. -/
theorem post_missing_output_field_order (w : World) (b : ReqBody) (raw : String)
    (p : ParsedRec)
    (hk : optStrFalsy w.geminiApiKey = false) (hb : w.body = some b)
    (hfields : (strFalsy b.username || strFalsy b.age || strFalsy b.style ||
      strFalsy b.activity) = false)
    (hf : w.fetch = FetchResult.ok (some raw) (some p)) (hraw : raw ≠ "") :
    (p.city = "" →
      POST w = ⟨500, [("error", "AI response missing 'city' field")], true⟩) ∧
    (p.city ≠ "" → p.country = "" →
      POST w = ⟨500, [("error", "AI response missing 'country' field")], true⟩) ∧
    (p.city ≠ "" → p.country ≠ "" → p.recommendation = "" →
      POST w = ⟨500, [("error", "AI response missing 'recommendation' field")], true⟩) := by
  have hraw2 : optStrFalsy (some raw) = false := by simp [optStrFalsy, hraw]
  refine ⟨fun h1 => ?_, fun h1 h2 => ?_, fun h1 h2 h3 => ?_⟩
  · have h1b : strFalsy p.city = true := by simp [strFalsy, h1]
    simp [POST, postInner, hk, hb, hfields, hf, hraw2, h1b]
  · have h1b : strFalsy p.city = false := by simp [strFalsy, h1]
    have h2b : strFalsy p.country = true := by simp [strFalsy, h2]
    simp [POST, postInner, hk, hb, hfields, hf, hraw2, h1b, h2b]
  · have h1b : strFalsy p.city = false := by simp [strFalsy, h1]
    have h2b : strFalsy p.country = false := by simp [strFalsy, h2]
    have h3b : strFalsy p.recommendation = true := by simp [strFalsy, h3]
    simp [POST, postInner, hk, hb, hfields, hf, hraw2, h1b, h2b, h3b]

/-- C3 witness: a parsed object with a present city, an empty country and
a present recommendation yields the 500 citing specifically the country
field. -/
theorem post_missing_output_field_order_witness :
    POST ⟨some "k", some ⟨"Ana", "29", "Relaxed", "Hiking"⟩,
          FetchResult.ok (some "raw") (some ⟨"Lisbon", "", "Surf."⟩)⟩ =
      ⟨500, [("error", "AI response missing 'country' field")], true⟩ :=
  (post_missing_output_field_order
    ⟨some "k", some ⟨"Ana", "29", "Relaxed", "Hiking"⟩,
      FetchResult.ok (some "raw") (some ⟨"Lisbon", "", "Surf."⟩)⟩
    ⟨"Ana", "29", "Relaxed", "Hiking"⟩ "raw" ⟨"Lisbon", "", "Surf."⟩
    (by decide) rfl (by decide) rfl (by decide)).2.1 (by decide) rfl

/-- C4 -- On full success (credential present, all four input fields
present, upstream ok, text payload extracted, JSON parsed, all three
output fields non-empty) the handler responds 200 with a body holding
exactly the keys city, country, recommendation in that order, all with
non-empty values. -/
theorem post_success_200 (w : World) (b : ReqBody) (raw : String) (p : ParsedRec)
    (hk : optStrFalsy w.geminiApiKey = false) (hb : w.body = some b)
    (hfields : (strFalsy b.username || strFalsy b.age || strFalsy b.style ||
      strFalsy b.activity) = false)
    (hf : w.fetch = FetchResult.ok (some raw) (some p)) (hraw : raw ≠ "")
    (hc : p.city ≠ "") (hco : p.country ≠ "") (hr : p.recommendation ≠ "") :
    POST w = ⟨200, [("city", p.city), ("country", p.country),
                    ("recommendation", p.recommendation)], true⟩ ∧
    (POST w).body.map Prod.fst = ["city", "country", "recommendation"] ∧
    ∀ kv ∈ (POST w).body, kv.2 ≠ "" := by
  have hP : POST w = ⟨200, [("city", p.city), ("country", p.country),
      ("recommendation", p.recommendation)], true⟩ := by
    have hraw2 : optStrFalsy (some raw) = false := by simp [optStrFalsy, hraw]
    have hcb : strFalsy p.city = false := by simp [strFalsy, hc]
    have hcob : strFalsy p.country = false := by simp [strFalsy, hco]
    have hrb : strFalsy p.recommendation = false := by simp [strFalsy, hr]
    simp [POST, postInner, hk, hb, hfields, hf, hraw2, hcb, hcob, hrb]
  refine ⟨hP, ?_, ?_⟩
  · rw [hP]
    rfl
  · rw [hP]
    intro kv hkv
    simp only [List.mem_cons, List.not_mem_nil, or_false] at hkv
    rcases hkv with h | h | h <;> subst h <;> assumption

/-- C4 witness: a fully successful concrete round trip. -/
theorem post_success_200_witness :
    POST ⟨some "k", some ⟨"Ana", "29", "Relaxed", "Hiking"⟩,
          FetchResult.ok (some "raw") (some ⟨"Lisbon", "Portugal", "Surf."⟩)⟩ =
      ⟨200, [("city", "Lisbon"), ("country", "Portugal"),
             ("recommendation", "Surf.")], true⟩ ∧
    (POST ⟨some "k", some ⟨"Ana", "29", "Relaxed", "Hiking"⟩,
          FetchResult.ok (some "raw") (some ⟨"Lisbon", "Portugal", "Surf."⟩)⟩).body.map
        Prod.fst = ["city", "country", "recommendation"] ∧
    ∀ kv ∈ (POST ⟨some "k", some ⟨"Ana", "29", "Relaxed", "Hiking"⟩,
          FetchResult.ok (some "raw") (some ⟨"Lisbon", "Portugal", "Surf."⟩)⟩).body,
      kv.2 ≠ "" :=
  post_success_200
    ⟨some "k", some ⟨"Ana", "29", "Relaxed", "Hiking"⟩,
      FetchResult.ok (some "raw") (some ⟨"Lisbon", "Portugal", "Surf."⟩)⟩
    ⟨"Ana", "29", "Relaxed", "Hiking"⟩ "raw" ⟨"Lisbon", "Portugal", "Surf."⟩
    (by decide) rfl (by decide) rfl (by decide) (by decide) (by decide) (by decide)

/-- C5 -- The handler is total: every world yields a well-formed response
with status 200, 400 or 500, and whenever the `try` body throws (body
parse failure, fetch failure, upstream json failure), the top-level catch
converts the exception into the generic 500 "Server processing error"
response. -/
theorem post_no_unhandled_exception (w : World) :
    ((POST w).status = 200 ∨ (POST w).status = 400 ∨ (POST w).status = 500) ∧
    ∀ e, postInner w = Except.error e →
      POST w = ⟨500, [("error", "Server processing error")], e⟩ := by
  constructor
  · rcases POST_shape w with ⟨h, -⟩ | ⟨h | h, -⟩
    · exact Or.inl h
    · exact Or.inr (Or.inl h)
    · exact Or.inr (Or.inr h)
  · intro e he
    simp [POST, he]

/-- C5 witness: a request whose body JSON parse throws is answered by the
generic 500. -/
theorem post_no_unhandled_exception_witness :
    POST ⟨some "k", none, FetchResult.throws⟩ =
      ⟨500, [("error", "Server processing error")], false⟩ :=
  (post_no_unhandled_exception ⟨some "k", none, FetchResult.throws⟩).2 false rfl

/-- C6 -- For every submission whose endpoint response is not successful
(status outside 2xx, or an `error` key present in the body), the client
shows the blocking alert and returns: the record is never written to the
store. -/
theorem client_alert_on_failure (w : World) (d : FormData)
    (h : ¬(200 ≤ (POST w).status ∧ (POST w).status < 300) ∨
      lookupField "error" (POST w).body ≠ none) :
    (∃ msg, onSubmit d (toClientResp (POST w)) = SubmitResult.alerted msg) ∧
    ∀ r, onSubmit d (toClientResp (POST w)) ≠ SubmitResult.wrote r := by
  rcases POST_shape w with ⟨h200, herr⟩ | ⟨hst, m, hbody, hm⟩
  · rcases h with h | h
    · rw [h200] at h
      exact absurd ⟨by norm_num, by norm_num⟩ h
    · exact absurd herr h
  · have hok : (toClientResp (POST w)).ok = false := by
      rcases hst with h4 | h4 <;> simp [toClientResp, h4]
    constructor
    · refine ⟨"Recommendation failed: " ++
        (toClientResp (POST w)).json.error.getD "unknown", ?_⟩
      simp [onSubmit, hok]
    · intro r
      simp [onSubmit, hok]

/-- C6 witness: a response produced by the handler with the credential
unset (a 500 with an error body) makes the client alert and never write. -/
theorem client_alert_on_failure_witness :
    (∃ msg, onSubmit ⟨"Ana", "29", "Relaxed", "Hiking"⟩
        (toClientResp (POST ⟨none, some ⟨"Ana", "29", "Relaxed", "Hiking"⟩,
          FetchResult.throws⟩)) = SubmitResult.alerted msg) ∧
    ∀ r, onSubmit ⟨"Ana", "29", "Relaxed", "Hiking"⟩
        (toClientResp (POST ⟨none, some ⟨"Ana", "29", "Relaxed", "Hiking"⟩,
          FetchResult.throws⟩)) ≠ SubmitResult.wrote r :=
  client_alert_on_failure
    ⟨none, some ⟨"Ana", "29", "Relaxed", "Hiking"⟩, FetchResult.throws⟩
    ⟨"Ana", "29", "Relaxed", "Hiking"⟩ (by decide)

/-- C7 -- A form input with any field below its minimum length is blocked
by the client-side schema: the gate returns the per-field messages, no
network call is issued, each failing field contributes its field-specific
message, and the submit callback is never reached. -/
theorem form_min_length_blocks (d : FormData)
    (h : d.username.length < 2 ∨ d.age.length < 1 ∨ d.style.length < 3 ∨
      d.activity.length < 3) :
    handleSubmitGate d = FormSubmission.blocked (formFieldErrors d) ∧
    issuesNetworkCall (handleSubmitGate d) = false ∧
    (d.username.length < 2 →
      ("username", "String must contain at least 2 character(s)") ∈ formFieldErrors d) ∧
    (d.age.length < 1 →
      ("age", "String must contain at least 1 character(s)") ∈ formFieldErrors d) ∧
    (d.style.length < 3 →
      ("style", "String must contain at least 3 character(s)") ∈ formFieldErrors d) ∧
    (d.activity.length < 3 →
      ("activity", "String must contain at least 3 character(s)") ∈ formFieldErrors d) ∧
    ∀ e, handleSubmitGate d ≠ FormSubmission.submitted e := by
  by_cases h1 : d.username.length < 2 <;> by_cases h2 : d.age.length < 1 <;>
    by_cases h3 : d.style.length < 3 <;> by_cases h4 : d.activity.length < 3 <;>
    simp_all [handleSubmitGate, formFieldErrors, issuesNetworkCall]

/-- C7 witness: a concrete input with a short username and short style is
blocked with the two field-specific messages and never reaches the
callback. -/
theorem form_min_length_blocks_witness :
    handleSubmitGate ⟨"A", "29", "xy", "Hiking"⟩ =
      FormSubmission.blocked (formFieldErrors ⟨"A", "29", "xy", "Hiking"⟩) ∧
    issuesNetworkCall (handleSubmitGate ⟨"A", "29", "xy", "Hiking"⟩) = false ∧
    (("A" : String).length < 2 →
      ("username", "String must contain at least 2 character(s)") ∈
        formFieldErrors ⟨"A", "29", "xy", "Hiking"⟩) ∧
    (("29" : String).length < 1 →
      ("age", "String must contain at least 1 character(s)") ∈
        formFieldErrors ⟨"A", "29", "xy", "Hiking"⟩) ∧
    (("xy" : String).length < 3 →
      ("style", "String must contain at least 3 character(s)") ∈
        formFieldErrors ⟨"A", "29", "xy", "Hiking"⟩) ∧
    (("Hiking" : String).length < 3 →
      ("activity", "String must contain at least 3 character(s)") ∈
        formFieldErrors ⟨"A", "29", "xy", "Hiking"⟩) ∧
    ∀ e, handleSubmitGate ⟨"A", "29", "xy", "Hiking"⟩ ≠ FormSubmission.submitted e :=
  form_min_length_blocks ⟨"A", "29", "xy", "Hiking"⟩ (by decide)

/-- C10 -- In a successful response (2xx with no error key), each of
city/country/recommendation is defaulted to "Unknown" exactly when it is
absent (null/undefined); a field present as the empty string is written
to the record unchanged as the empty string. -/
theorem client_unknown_defaulting (d : FormData) (j : ClientJson)
    (herr : j.error = none) :
    ∃ r, onSubmit d ⟨true, j⟩ = SubmitResult.wrote r ∧
      (j.city = none → r.city = "Unknown") ∧
      (∀ v, j.city = some v → r.city = v) ∧
      (j.country = none → r.country = "Unknown") ∧
      (∀ v, j.country = some v → r.country = v) ∧
      (j.recommendation = none → r.recommendation = "Unknown") ∧
      (∀ v, j.recommendation = some v → r.recommendation = v) := by
  refine ⟨⟨d.username, d.age, d.style, d.activity, j.city.getD "Unknown",
    j.country.getD "Unknown", j.recommendation.getD "Unknown"⟩, ?_, ?_, ?_, ?_, ?_, ?_, ?_⟩
  · simp [onSubmit, herr, optStrFalsy]
  · intro h; rw [h]; rfl
  · intro v h; rw [h]; rfl
  · intro h; rw [h]; rfl
  · intro v h; rw [h]; rfl
  · intro h; rw [h]; rfl
  · intro v h; rw [h]; rfl

/-- C10 witness: with city present as the empty string, country present
and recommendation absent, the written record keeps "" for city, the
given country, and "Unknown" for recommendation. -/
theorem client_unknown_defaulting_witness :
    ∃ r, onSubmit ⟨"Ana", "29", "Relaxed", "Hiking"⟩
        ⟨true, ⟨none, some "", some "Portugal", none⟩⟩ = SubmitResult.wrote r ∧
      r.city = "" ∧ r.country = "Portugal" ∧ r.recommendation = "Unknown" := by
  obtain ⟨r, hw, hc1, hc2, hk1, hk2, hr1, hr2⟩ :=
    client_unknown_defaulting ⟨"Ana", "29", "Relaxed", "Hiking"⟩
      ⟨none, some "", some "Portugal", none⟩ rfl
  exact ⟨r, hw, hc2 "" rfl, hk2 "Portugal" rfl, hr1 rfl⟩
